import Mathlib

/-!
Verification of the vacs client call-session model.

This file embeds, in Lean, the state and actions of the frontend stores of
the vacs client (`call-store.ts`, `clients-store.ts`, `call-list-store.ts`,
`stations-store.ts`) together with the signaling listener's disconnect
handler and the `startCall` entry point, and proves properties about them.

Modelling conventions:
* TypeScript opaque string ids (`CallId`, `ClientId`, ...) become `String`.
* `undefined` / optional fields become `Option`.
* The zustand store state becomes a plain structure; each store action
  becomes a function `... → State → State`.
* The numeric handle returned by `setTimeout` is abstracted: `blinkTimeoutId`
  is `Option Nat`, `some _` meaning a timer is scheduled, `none` meaning no
  timer exists.  `startBlink` installs `some 0`; `clearTimeout` + the
  store write installing `undefined` become setting the field to `none`.
* The awaited `invokeStrict` RPC of `startCall` is abstracted by an input
  `Option CallId`: `some id` is a successful response, `none` a rejection
  (which the source catches and ignores).  Wall-clock time (`now()`) is an
  explicit input.
-/

namespace Vacs

abbrev CallId := String
abbrev ClientId := String
abbrev StationId := String
abbrev PositionId := String

/-- `CallSource` from `types/call.ts`. -/
structure CallSource where
  clientId : ClientId
  positionId : Option PositionId
  stationId : Option StationId
deriving DecidableEq, Repr

/-- `CallTarget` from `types/call.ts`. -/
structure CallTarget where
  client : Option ClientId
  position : Option PositionId
  station : Option StationId
deriving DecidableEq, Repr

/-- `Call` from `types/call.ts`. -/
structure Call where
  callId : CallId
  source : CallSource
  target : CallTarget
deriving DecidableEq, Repr

/-- The `type` tag of a `CallDisplay` in `call-store.ts`. -/
inductive DisplayType where
  | outgoing
  | accepted
  | rejected
  | error
deriving DecidableEq, Repr

/-- The `ConnectionState` union of `call-store.ts`. -/
inductive ConnState where
  | connecting
  | connected
  | disconnected
deriving DecidableEq, Repr

/-- `CallDisplay` from `call-store.ts`. -/
structure CallDisplay where
  type : DisplayType
  call : Call
  targetClientId : Option ClientId
  errorReason : Option String
  connectionState : Option ConnState
deriving DecidableEq, Repr

/-- The data fields of the `useCallStore` zustand state. -/
structure CallState where
  blink : Bool
  blinkTimeoutId : Option Nat
  callDisplay : Option CallDisplay
  incomingCalls : List Call
deriving DecidableEq, Repr

/-- The initial `useCallStore` state. -/
def initialCallState : CallState :=
  { blink := false, blinkTimeoutId := none, callDisplay := none, incomingCalls := [] }

/-- `shouldStopBlinking` helper of `call-store.ts`. -/
def shouldStopBlinking (incomingCallsLength : Nat) (callDisplay : Option CallDisplay) : Bool :=
  incomingCallsLength == 0 &&
    (match callDisplay with
     | none => true
     | some cd => cd.type != DisplayType.rejected && cd.type != DisplayType.error)

/-- `startBlink` helper of `call-store.ts`: schedules the toggle timer and
sets `blink` to `true` (the first `toggleBlink(true)` call). -/
def startBlink (s : CallState) : CallState :=
  { s with blink := true, blinkTimeoutId := some 0 }

/-- Action `setOutgoingCall` of `call-store.ts`. -/
def setOutgoingCall (call : Call) (s : CallState) : CallState :=
  { s with callDisplay := some {
      type := DisplayType.outgoing, call := call,
      targetClientId := none, errorReason := none, connectionState := none } }

/-- Action `acceptIncomingCall` of `call-store.ts`. -/
def acceptIncomingCall (callId : CallId) (s : CallState) : CallState :=
  match s.incomingCalls.find? (fun call => call.callId == callId) with
  | none => s
  | some incomingCall =>
    let incomingCalls := s.incomingCalls.filter (fun info => info.callId != callId)
    let s :=
      if shouldStopBlinking incomingCalls.length s.callDisplay then
        { s with blink := false, blinkTimeoutId := none, incomingCalls := [] }
      else s
    { s with
      callDisplay := some {
        type := DisplayType.accepted, call := incomingCall,
        targetClientId := some incomingCall.source.clientId, errorReason := none,
        connectionState := some ConnState.connecting },
      incomingCalls := incomingCalls }

/-- Action `setOutgoingCallAccepted` of `call-store.ts`. -/
def setOutgoingCallAccepted (callId : CallId) (targetClientId : ClientId)
    (s : CallState) : CallState :=
  match s.callDisplay with
  | none => s
  | some cd =>
    if cd.type ≠ DisplayType.outgoing ∨ cd.call.callId ≠ callId then s
    else
      { s with callDisplay := some {
          cd with
          type := DisplayType.accepted,
          targetClientId := some targetClientId,
          connectionState := some ConnState.connecting } }

/-- Action `endCall` of `call-store.ts`. -/
def endCall (s : CallState) : CallState :=
  { s with callDisplay := none }

/-- Action `addIncomingCall` of `call-store.ts`. -/
def addIncomingCall (call : Call) (s : CallState) : CallState :=
  let incomingCalls := s.incomingCalls.filter (fun info => info.callId != call.callId)
  let s := if s.blinkTimeoutId = none then startBlink s else s
  { s with incomingCalls := incomingCalls ++ [call] }

/-- Action `removeCall` of `call-store.ts`; the optional `callEnd` argument
is a `Bool`, `false` standing for an absent (hence falsy) argument. -/
def removeCall (callId : CallId) (callEnd : Bool) (s : CallState) : CallState :=
  let incomingCalls := s.incomingCalls.filter (fun info => info.callId != callId)
  let s :=
    if shouldStopBlinking incomingCalls.length s.callDisplay then
      { s with blink := false, blinkTimeoutId := none, incomingCalls := [] }
    else
      { s with incomingCalls := incomingCalls }
  match s.callDisplay with
  | none => s
  | some cd =>
    if cd.call.callId = callId ∧ cd.type ≠ DisplayType.error ∧
        (callEnd = false ∨ cd.type ≠ DisplayType.outgoing) then
      { s with callDisplay := none }
    else s

/-- Action `rejectCall` of `call-store.ts`. -/
def rejectCall (callId : CallId) (s : CallState) : CallState :=
  match s.callDisplay with
  | none => removeCall callId false s
  | some cd =>
    if cd.call.callId ≠ callId ∨ cd.type ≠ DisplayType.outgoing then
      removeCall callId false s
    else
      let s := { s with callDisplay := some {
          type := DisplayType.rejected,
          call := cd.call, targetClientId := none, errorReason := none,
          connectionState := none } }
      if s.blinkTimeoutId = none then startBlink s else s

/-- Action `dismissRejectedCall` of `call-store.ts`. -/
def dismissRejectedCall (s : CallState) : CallState :=
  let s := { s with callDisplay := none }
  if shouldStopBlinking s.incomingCalls.length none then
    { s with blink := false, blinkTimeoutId := none }
  else s

/-- Action `errorCall` of `call-store.ts`. -/
def errorCall (callId : CallId) (reason : String) (s : CallState) : CallState :=
  match s.callDisplay with
  | none => removeCall callId false s
  | some cd =>
    if cd.call.callId ≠ callId ∨ cd.type = DisplayType.rejected then
      removeCall callId false s
    else
      let s := { s with callDisplay := some {
          type := DisplayType.error,
          call := cd.call, targetClientId := none, errorReason := some reason,
          connectionState := none } }
      if s.blinkTimeoutId = none then startBlink s else s

/-- Action `dismissErrorCall` of `call-store.ts` (source-identical to
`dismissRejectedCall`). -/
def dismissErrorCall (s : CallState) : CallState :=
  let s := { s with callDisplay := none }
  if shouldStopBlinking s.incomingCalls.length none then
    { s with blink := false, blinkTimeoutId := none }
  else s

/-- Action `setConnectionState` of `call-store.ts` (the per-call transport
connection state, not the signaling connection). -/
def setCallConnectionState (callId : CallId) (connectionState : ConnState)
    (s : CallState) : CallState :=
  match s.callDisplay with
  | none => s
  | some cd =>
    if cd.call.callId ≠ callId then s
    else { s with callDisplay := some {
        cd with
        connectionState := some connectionState } }

/-- Action `reset` of `call-store.ts`. -/
def resetCall (s : CallState) : CallState :=
  { s with
    callDisplay := none, incomingCalls := [], blink := false,
    blinkTimeoutId := none }

/-- One call-store action invocation. -/
inductive CallOp where
  | setOutgoingCall (call : Call)
  | acceptIncomingCall (callId : CallId)
  | setOutgoingCallAccepted (callId : CallId) (targetClientId : ClientId)
  | endCall
  | addIncomingCall (call : Call)
  | removeCall (callId : CallId) (callEnd : Bool)
  | rejectCall (callId : CallId)
  | dismissRejectedCall
  | errorCall (callId : CallId) (reason : String)
  | dismissErrorCall
  | setCallConnectionState (callId : CallId) (connectionState : ConnState)
  | resetCall
deriving DecidableEq, Repr

/-- Applying a call-store action to a state. -/
def CallOp.apply : CallOp → CallState → CallState
  | CallOp.setOutgoingCall call, s => Vacs.setOutgoingCall call s
  | CallOp.acceptIncomingCall callId, s => Vacs.acceptIncomingCall callId s
  | CallOp.setOutgoingCallAccepted callId targetClientId, s =>
      Vacs.setOutgoingCallAccepted callId targetClientId s
  | CallOp.endCall, s => Vacs.endCall s
  | CallOp.addIncomingCall call, s => Vacs.addIncomingCall call s
  | CallOp.removeCall callId callEnd, s => Vacs.removeCall callId callEnd s
  | CallOp.rejectCall callId, s => Vacs.rejectCall callId s
  | CallOp.dismissRejectedCall, s => Vacs.dismissRejectedCall s
  | CallOp.errorCall callId reason, s => Vacs.errorCall callId reason s
  | CallOp.dismissErrorCall, s => Vacs.dismissErrorCall s
  | CallOp.setCallConnectionState callId cs, s => Vacs.setCallConnectionState callId cs s
  | CallOp.resetCall, s => Vacs.resetCall s

/-- Call-store states reachable from the initial state by action invocations. -/
inductive ReachableCall : CallState → Prop where
  | init : ReachableCall initialCallState
  | next (op : CallOp) {s : CallState} :
      ReachableCall s → ReachableCall (op.apply s)

/-- A blink-worthy condition in the sense of the spec: a non-empty incoming
queue, or a `Rejected`/`Error` call display. -/
def blinkWorthy (s : CallState) : Bool :=
  !s.incomingCalls.isEmpty ||
    (match s.callDisplay with
     | some cd => cd.type == DisplayType.rejected || cd.type == DisplayType.error
     | none => false)

/-- `ClientInfo` as used by `clients-store.ts` (id, display name, optional
position id, optional alias, frequency).  The source field `alias` is
rendered `aliasName` because `alias` is a Lean keyword. -/
structure ClientInfo where
  id : ClientId
  displayName : String
  positionId : Option PositionId
  aliasName : Option String
  frequency : String
deriving DecidableEq, Repr

/-- Action `setClients` of `clients-store.ts`: replaces the whole list. -/
def setClients (clients : List ClientInfo) (_s : List ClientInfo) : List ClientInfo :=
  clients

/-- Action `addClient` of `clients-store.ts`: appends the client to the list. -/
def addClient (client : ClientInfo) (s : List ClientInfo) : List ClientInfo :=
  s ++ [client]

/-- Getter `getClientInfo` of `clients-store.ts`.  The store performs no
`set` here; the returned pair carries the looked-up (or synthesized) client
together with the unchanged client list. -/
def getClientInfo (cid : ClientId) (s : List ClientInfo) : ClientInfo × List ClientInfo :=
  match s.find? (fun c => c.id == cid) with
  | none =>
    ({ id := cid, displayName := cid, positionId := none, aliasName := none,
       frequency := "" }, s)
  | some client => (client, s)

/-- Action `removeClient` of `clients-store.ts`. -/
def removeClient (cid : ClientId) (s : List ClientInfo) : List ClientInfo :=
  s.filter (fun client => client.id != cid)

/-- One clients-store action invocation. -/
inductive ClientsOp where
  | setClients (clients : List ClientInfo)
  | addClient (client : ClientInfo)
  | removeClient (cid : ClientId)
deriving DecidableEq, Repr

/-- Applying a clients-store action to the client list. -/
def ClientsOp.apply : ClientsOp → List ClientInfo → List ClientInfo
  | ClientsOp.setClients clients, s => Vacs.setClients clients s
  | ClientsOp.addClient client, s => Vacs.addClient client s
  | ClientsOp.removeClient cid, s => Vacs.removeClient cid s

/-- Client directory snapshots reachable from the initial empty list. -/
inductive ReachableClients : List ClientInfo → Prop where
  | init : ReachableClients []
  | next (op : ClientsOp) {s : List ClientInfo} :
      ReachableClients s → ReachableClients (op.apply s)

/-- A direct-access station key of the active profile, as consumed by
`callListName` in `call-list-store.ts`. -/
structure StationKey where
  stationId : Option StationId
  label : List String
deriving DecidableEq, Repr

/-- The `type` tag of a `CallListItem` (`"IN"` or `"OUT"`). -/
inductive CallListType where
  | IN
  | OUT
deriving DecidableEq, Repr

/-- `CallListItem` of `call-list-store.ts`; `time` carries the formatted
`now()` string, supplied as an explicit input. -/
structure CallListItem where
  type : CallListType
  time : String
  name : String
  target : CallTarget
  clientId : Option ClientId
deriving DecidableEq, Repr

/-- The insertion-ordered `Map` of `call-list-store.ts`, as an association
list.  `callListSet` is `Map.set`: update in place when the key is present,
append otherwise. -/
def callListSet (k : CallId) (v : CallListItem) (m : List (CallId × CallListItem)) :
    List (CallId × CallListItem) :=
  if m.any (fun p => p.1 == k) then
    m.map (fun p => if p.1 == k then (k, v) else p)
  else m ++ [(k, v)]

/-- `callListName` of `call-list-store.ts`: station-key label, else raw
position id, else raw client id, else the empty string. -/
def callListName (stationId : Option StationId) (positionId : Option PositionId)
    (clientId : Option ClientId) (stationKeys : List StationKey) : String :=
  match stationId with
  | some sid =>
    (match stationKeys.find? (fun key => key.stationId == some sid) with
     | some station => " ".intercalate station.label
     | none => sid)
  | none =>
    match positionId with
    | some pid => pid
    | none => clientId.getD ""

/-- Action `addOutgoingCall` of `call-list-store.ts`. -/
def addOutgoingCallToCallList (callId : CallId) (target : CallTarget)
    (time : String) (stationKeys : List StationKey)
    (m : List (CallId × CallListItem)) : List (CallId × CallListItem) :=
  callListSet callId
    { type := CallListType.OUT, time := time,
      name := callListName target.station target.position target.client stationKeys,
      target := target, clientId := none } m

/-- `StationInfo` as consumed by `stations-store.ts` (`setStations` keeps
`id` and `own`). -/
structure StationInfo where
  id : StationId
  own : Bool
deriving DecidableEq, Repr

/-- Action `setStations` of `stations-store.ts`: rebuilds the station map
from the list. -/
def setStations (stations : List StationInfo) : List (StationId × Bool) :=
  stations.map (fun s => (s.id, s.own))

/-- The connection info held by the connection store (`displayName`,
`positionId`, `frequency`). -/
structure ConnectionInfo where
  displayName : String
  positionId : Option PositionId
  frequency : String
deriving DecidableEq, Repr

/-- The portions of the frontend store state touched by the signaling
listener's `disconnected` handler.  The active profile is abstracted to an
opaque identifier. -/
structure AppState where
  connectionState : ConnState
  connectionInfo : ConnectionInfo
  clients : List ClientInfo
  stations : List (StationId × Bool)
  call : CallState
  callList : List (CallId × CallListItem)
  profile : Option String
deriving DecidableEq, Repr

/-- The `signaling:disconnected` handler of `signaling-listener.ts`:
sets the connection state to `disconnected`, blanks the connection info,
clears the client list and station map, resets the call store, clears the
call list and drops the active profile. -/
def handleDisconnected (s : AppState) : AppState :=
  { s with
    connectionState := ConnState.disconnected,
    connectionInfo := { displayName := "", positionId := none, frequency := "" },
    clients := setClients [] s.clients,
    stations := setStations [],
    call := resetCall s.call,
    callList := [],
    profile := none }

/-- The store snapshot read and written by `startCall` in `call-store.ts`:
the authenticated `cid`, the connection info's position id, the stations
store's temporary/default source overrides, the call store and the call
list. -/
structure StartCallState where
  cid : ClientId
  positionId : Option PositionId
  temporarySource : Option StationId
  defaultSource : Option StationId
  call : CallState
  callList : List (CallId × CallListItem)
deriving DecidableEq, Repr

/-- The externally observable effects of one `startCall` invocation. -/
structure StartCallEffects where
  rpcIssued : Bool
  errorOverlayOpened : Bool
deriving DecidableEq, Repr

/-- The station id `startCall` resolves for the outgoing call's source:
the temporary override if set, else the default override, else none. -/
def resolvedStationId (s : StartCallState) : Option StationId :=
  match s.temporarySource with
  | some t => some t
  | none => s.defaultSource

/-- `startCall` of `call-store.ts`.  `rpcResult` abstracts the awaited
`signaling_start_call` RPC (`some id` success, `none` rejection, which the
source catches and discards); `time` abstracts `now()` used by the call
list; `stationKeys` abstracts the active profile's station keys consumed
by `callListName`. -/
def startCall (target : CallTarget) (rpcResult : Option CallId) (time : String)
    (stationKeys : List StationKey) (s : StartCallState) :
    StartCallState × StartCallEffects :=
  if target.client = some s.cid then
    (s, { rpcIssued := false, errorOverlayOpened := true })
  else
    let stationId := resolvedStationId s
    let s := if s.temporarySource.isSome then { s with temporarySource := none } else s
    let source : CallSource :=
      { clientId := s.cid, positionId := s.positionId, stationId := stationId }
    match rpcResult with
    | none => (s, { rpcIssued := true, errorOverlayOpened := false })
    | some callId =>
      let call : Call := { callId := callId, source := source, target := target }
      let s := { s with call := setOutgoingCall call s.call }
      let s := { s with
        callList := addOutgoingCallToCallList callId target time stationKeys s.callList }
      (s, { rpcIssued := true, errorOverlayOpened := false })

/-- The slot-clearing condition inside `removeCall` (`call-store.ts`):
the display holds the given call id, the display is not `error`, and the
call-end flag is absent or the display is not `outgoing`. -/
def removeCallClearCond (callId : CallId) (callEnd : Bool) :
    Option CallDisplay → Bool
  | none => false
  | some cd =>
    decide (cd.call.callId = callId) && decide (cd.type ≠ DisplayType.error) &&
      (!callEnd || decide (cd.type ≠ DisplayType.outgoing))

/-- The display written by `rejectCall` in its matching branch. -/
def rejectedDisplay (call : Call) : CallDisplay :=
  { type := DisplayType.rejected, call := call, targetClientId := none,
    errorReason := none, connectionState := none }

/-- The display written by `errorCall` in its matching branch. -/
def erroredDisplay (call : Call) (reason : String) : CallDisplay :=
  { type := DisplayType.error, call := call, targetClientId := none,
    errorReason := some reason, connectionState := none }

/-- The display written by `setOutgoingCall`. -/
def outgoingDisplay (call : Call) : CallDisplay :=
  { type := DisplayType.outgoing, call := call, targetClientId := none,
    errorReason := none, connectionState := none }

/-- Inductive invariant for the blink timer: whenever no timer handle
exists, the incoming queue is empty and the display is neither `rejected`
nor `error` (equivalently: any blink-worthy state has a live timer). -/
def BlinkInv (s : CallState) : Prop :=
  s.blinkTimeoutId = none →
    s.incomingCalls = [] ∧
    ∀ cd, s.callDisplay = some cd →
      cd.type ≠ DisplayType.rejected ∧ cd.type ≠ DisplayType.error

/-- A sample call from client `A` to client `B`. -/
def callA : Call :=
  { callId := "c1",
    source := { clientId := "A", positionId := none, stationId := none },
    target := { client := some "B", position := none, station := none } }

/-- A second sample call, from client `C` to client `B`. -/
def callC : Call :=
  { callId := "c3",
    source := { clientId := "C", positionId := none, stationId := none },
    target := { client := some "B", position := none, station := none } }

/-- A call-store state whose display holds `callA` in the `accepted` state
with a connected transport, and whose incoming queue is empty. -/
def acceptedState : CallState :=
  { blink := false, blinkTimeoutId := none,
    callDisplay := some {
      type := DisplayType.accepted, call := callA, targetClientId := some "B",
      errorReason := none, connectionState := some ConnState.connected },
    incomingCalls := [] }

/-- The state reached from the initial call-store state by
`setOutgoingCall callA`, then `rejectCall "c1"`, then `removeCall "c1"`:
the reject turns the slot `rejected` and starts the blink timer, and the
remove then clears the slot while leaving the timer handle installed. -/
def blinkLeakState : CallState :=
  (CallOp.removeCall "c1" false).apply
    ((CallOp.rejectCall "c1").apply
      ((CallOp.setOutgoingCall callA).apply initialCallState))

/-- The state reached from the initial call-store state by a single
`addIncomingCall callA`. -/
def oneIncomingState : CallState :=
  (CallOp.addIncomingCall callA).apply initialCallState

/-- A `startCall` store snapshot for local client `A` whose call display is
already occupied by the outgoing `callA`. -/
def occupiedStart : StartCallState :=
  { cid := "A", positionId := none, temporarySource := none,
    defaultSource := none, call := setOutgoingCall callA initialCallState,
    callList := [] }

/-- A `startCall` store snapshot for local client `A` with an empty call
display. -/
def emptyStart : StartCallState :=
  { cid := "A", positionId := none, temporarySource := none,
    defaultSource := none, call := initialCallState, callList := [] }

/-- A sample directory client with id `"a"`. -/
def dupClient : ClientInfo :=
  { id := "a", displayName := "Alpha", positionId := none, aliasName := none,
    frequency := "122.800" }

/-- The directory snapshot reached from the empty directory by invoking
`addClient dupClient` twice. -/
def dupClients : List ClientInfo :=
  (ClientsOp.addClient dupClient).apply ((ClientsOp.addClient dupClient).apply [])

theorem shouldStopBlinking_eq_true {n : Nat} {cd? : Option CallDisplay} :
    shouldStopBlinking n cd? = true ↔
      n = 0 ∧ ∀ cd, cd? = some cd →
        cd.type ≠ DisplayType.rejected ∧ cd.type ≠ DisplayType.error := by
  cases cd? <;> simp [shouldStopBlinking, and_assoc]

theorem removeCallClearCond_some (callId : CallId) (callEnd : Bool)
    (cd : CallDisplay) :
    removeCallClearCond callId callEnd (some cd)
      = decide (cd.call.callId = callId ∧ cd.type ≠ DisplayType.error ∧
          (callEnd = false ∨ cd.type ≠ DisplayType.outgoing)) := by
  unfold removeCallClearCond
  cases callEnd <;> simp [Bool.and_assoc]

theorem removeCall_incomingCalls (callId : CallId) (callEnd : Bool) (s : CallState) :
    (removeCall callId callEnd s).incomingCalls
      = s.incomingCalls.filter (fun info => info.callId != callId) := by
  obtain ⟨b, t, cd?, inc⟩ := s
  unfold removeCall
  dsimp only
  by_cases hstop : shouldStopBlinking
      (inc.filter (fun info => info.callId != callId)).length cd? = true
  · have hemp : inc.filter (fun info => info.callId != callId) = [] :=
      List.length_eq_zero.mp (shouldStopBlinking_eq_true.mp hstop).1
    rw [hemp, List.length_nil] at hstop
    cases cd? with
    | none => simp [hstop, hemp]
    | some cd =>
      by_cases hclear : cd.call.callId = callId ∧ cd.type ≠ DisplayType.error ∧
          (callEnd = false ∨ cd.type ≠ DisplayType.outgoing) <;>
        simp [hstop, hemp, hclear]
  · rw [Bool.not_eq_true] at hstop
    cases cd? with
    | none => simp [hstop]
    | some cd =>
      by_cases hclear : cd.call.callId = callId ∧ cd.type ≠ DisplayType.error ∧
          (callEnd = false ∨ cd.type ≠ DisplayType.outgoing) <;>
        simp [hstop, hclear]

theorem removeCall_callDisplay (callId : CallId) (callEnd : Bool) (s : CallState) :
    (removeCall callId callEnd s).callDisplay
      = if removeCallClearCond callId callEnd s.callDisplay then none
        else s.callDisplay := by
  obtain ⟨b, t, cd?, inc⟩ := s
  unfold removeCall
  dsimp only
  by_cases hstop : shouldStopBlinking
      (inc.filter (fun info => info.callId != callId)).length cd? = true
  · cases cd? with
    | none => simp [hstop, removeCallClearCond]
    | some cd =>
      rw [removeCallClearCond_some]
      by_cases hclear : cd.call.callId = callId ∧ cd.type ≠ DisplayType.error ∧
          (callEnd = false ∨ cd.type ≠ DisplayType.outgoing) <;>
        simp [hstop, hclear]
  · rw [Bool.not_eq_true] at hstop
    cases cd? with
    | none => simp [hstop, removeCallClearCond]
    | some cd =>
      rw [removeCallClearCond_some]
      by_cases hclear : cd.call.callId = callId ∧ cd.type ≠ DisplayType.error ∧
          (callEnd = false ∨ cd.type ≠ DisplayType.outgoing) <;>
        simp [hstop, hclear]

theorem removeCall_blinkTimeoutId (callId : CallId) (callEnd : Bool) (s : CallState) :
    (removeCall callId callEnd s).blinkTimeoutId
      = if shouldStopBlinking
            (s.incomingCalls.filter (fun info => info.callId != callId)).length
            s.callDisplay then none else s.blinkTimeoutId := by
  obtain ⟨b, t, cd?, inc⟩ := s
  unfold removeCall
  dsimp only
  by_cases hstop : shouldStopBlinking
      (inc.filter (fun info => info.callId != callId)).length cd? = true
  · cases cd? with
    | none => simp [hstop]
    | some cd =>
      by_cases hclear : cd.call.callId = callId ∧ cd.type ≠ DisplayType.error ∧
          (callEnd = false ∨ cd.type ≠ DisplayType.outgoing) <;>
        simp [hstop, hclear]
  · rw [Bool.not_eq_true] at hstop
    cases cd? with
    | none => simp [hstop]
    | some cd =>
      by_cases hclear : cd.call.callId = callId ∧ cd.type ≠ DisplayType.error ∧
          (callEnd = false ∨ cd.type ≠ DisplayType.outgoing) <;>
        simp [hstop, hclear]

theorem removeCall_blink (callId : CallId) (callEnd : Bool) (s : CallState) :
    (removeCall callId callEnd s).blink
      = if shouldStopBlinking
            (s.incomingCalls.filter (fun info => info.callId != callId)).length
            s.callDisplay then false else s.blink := by
  obtain ⟨b, t, cd?, inc⟩ := s
  unfold removeCall
  dsimp only
  by_cases hstop : shouldStopBlinking
      (inc.filter (fun info => info.callId != callId)).length cd? = true
  · cases cd? with
    | none => simp [hstop]
    | some cd =>
      by_cases hclear : cd.call.callId = callId ∧ cd.type ≠ DisplayType.error ∧
          (callEnd = false ∨ cd.type ≠ DisplayType.outgoing) <;>
        simp [hstop, hclear]
  · rw [Bool.not_eq_true] at hstop
    cases cd? with
    | none => simp [hstop]
    | some cd =>
      by_cases hclear : cd.call.callId = callId ∧ cd.type ≠ DisplayType.error ∧
          (callEnd = false ∨ cd.type ≠ DisplayType.outgoing) <;>
        simp [hstop, hclear]

theorem rejectCall_match (s : CallState) (callId : CallId) (cd : CallDisplay)
    (hcd : s.callDisplay = some cd) (hid : cd.call.callId = callId)
    (hout : cd.type = DisplayType.outgoing) :
    rejectCall callId s =
      if s.blinkTimeoutId = none then
        startBlink { s with callDisplay := some (rejectedDisplay cd.call) }
      else { s with callDisplay := some (rejectedDisplay cd.call) } := by
  have hfalse : ¬(cd.call.callId ≠ callId ∨ cd.type ≠ DisplayType.outgoing) := by
    push_neg
    exact ⟨hid, hout⟩
  unfold rejectCall
  simp only [hcd]
  rw [if_neg hfalse]
  rfl

theorem rejectCall_fallthrough_none (s : CallState) (callId : CallId)
    (hcd : s.callDisplay = none) :
    rejectCall callId s = removeCall callId false s := by
  unfold rejectCall
  simp only [hcd]

theorem rejectCall_fallthrough_some (s : CallState) (callId : CallId)
    (cd : CallDisplay) (hcd : s.callDisplay = some cd)
    (h : cd.call.callId ≠ callId ∨ cd.type ≠ DisplayType.outgoing) :
    rejectCall callId s = removeCall callId false s := by
  unfold rejectCall
  simp only [hcd]
  rw [if_pos h]

theorem errorCall_match (s : CallState) (callId : CallId) (reason : String)
    (cd : CallDisplay) (hcd : s.callDisplay = some cd)
    (hid : cd.call.callId = callId) (hrej : cd.type ≠ DisplayType.rejected) :
    errorCall callId reason s =
      (if s.blinkTimeoutId = none then
        startBlink { s with callDisplay := some (erroredDisplay cd.call reason) }
      else { s with callDisplay := some (erroredDisplay cd.call reason) }) := by
  have hfalse : ¬(cd.call.callId ≠ callId ∨ cd.type = DisplayType.rejected) := by
    push_neg
    exact ⟨hid, hrej⟩
  unfold errorCall
  simp only [hcd]
  rw [if_neg hfalse]
  rfl

theorem errorCall_fallthrough_none (s : CallState) (callId : CallId)
    (reason : String) (hcd : s.callDisplay = none) :
    errorCall callId reason s = removeCall callId false s := by
  unfold errorCall
  simp only [hcd]

theorem errorCall_fallthrough_some (s : CallState) (callId : CallId)
    (reason : String) (cd : CallDisplay) (hcd : s.callDisplay = some cd)
    (h : cd.call.callId ≠ callId ∨ cd.type = DisplayType.rejected) :
    errorCall callId reason s = removeCall callId false s := by
  unfold errorCall
  simp only [hcd]
  rw [if_pos h]

theorem setOutgoingCallAccepted_none (callId : CallId) (targetClientId : ClientId)
    (s : CallState) (hcd : s.callDisplay = none) :
    setOutgoingCallAccepted callId targetClientId s = s := by
  unfold setOutgoingCallAccepted
  simp only [hcd]

theorem setOutgoingCallAccepted_skip (callId : CallId) (targetClientId : ClientId)
    (s : CallState) (cd : CallDisplay) (hcd : s.callDisplay = some cd)
    (hc : cd.type ≠ DisplayType.outgoing ∨ cd.call.callId ≠ callId) :
    setOutgoingCallAccepted callId targetClientId s = s := by
  unfold setOutgoingCallAccepted
  simp only [hcd]
  rw [if_pos hc]

theorem setOutgoingCallAccepted_match (callId : CallId) (targetClientId : ClientId)
    (s : CallState) (cd : CallDisplay) (hcd : s.callDisplay = some cd)
    (hc : ¬(cd.type ≠ DisplayType.outgoing ∨ cd.call.callId ≠ callId)) :
    setOutgoingCallAccepted callId targetClientId s =
      { s with callDisplay := some {
          cd with
          type := DisplayType.accepted,
          targetClientId := some targetClientId,
          connectionState := some ConnState.connecting } } := by
  unfold setOutgoingCallAccepted
  simp only [hcd]
  rw [if_neg hc]

theorem acceptIncomingCall_not_found (callId : CallId) (s : CallState)
    (hfind : s.incomingCalls.find? (fun call => call.callId == callId) = none) :
    acceptIncomingCall callId s = s := by
  unfold acceptIncomingCall
  simp only [hfind]

theorem acceptIncomingCall_found (callId : CallId) (s : CallState) (c : Call)
    (hfind : s.incomingCalls.find? (fun call => call.callId == callId) = some c) :
    acceptIncomingCall callId s =
      { blink :=
          if shouldStopBlinking
              (s.incomingCalls.filter (fun info => info.callId != callId)).length
              s.callDisplay then false else s.blink,
        blinkTimeoutId :=
          if shouldStopBlinking
              (s.incomingCalls.filter (fun info => info.callId != callId)).length
              s.callDisplay then none else s.blinkTimeoutId,
        callDisplay := some {
          type := DisplayType.accepted, call := c,
          targetClientId := some c.source.clientId, errorReason := none,
          connectionState := some ConnState.connecting },
        incomingCalls := s.incomingCalls.filter (fun info => info.callId != callId) } := by
  unfold acceptIncomingCall
  simp only [hfind]
  by_cases hstop : shouldStopBlinking
      (s.incomingCalls.filter (fun info => info.callId != callId)).length
      s.callDisplay = true <;>
    simp [hstop]

theorem addIncomingCall_eq (call : Call) (s : CallState) :
    addIncomingCall call s =
      { blink := if s.blinkTimeoutId = none then true else s.blink,
        blinkTimeoutId :=
          if s.blinkTimeoutId = none then some 0 else s.blinkTimeoutId,
        callDisplay := s.callDisplay,
        incomingCalls :=
          s.incomingCalls.filter (fun info => info.callId != call.callId) ++ [call] } := by
  unfold addIncomingCall
  by_cases hb : s.blinkTimeoutId = none <;> simp [hb, startBlink]

theorem dismissRejectedCall_eq (s : CallState) :
    dismissRejectedCall s =
      if shouldStopBlinking s.incomingCalls.length none then
        { blink := false, blinkTimeoutId := none, callDisplay := none,
          incomingCalls := s.incomingCalls }
      else { s with callDisplay := none } := by
  unfold dismissRejectedCall
  by_cases h : shouldStopBlinking s.incomingCalls.length none = true <;> simp [h]

theorem dismissErrorCall_eq (s : CallState) :
    dismissErrorCall s =
      if shouldStopBlinking s.incomingCalls.length none then
        { blink := false, blinkTimeoutId := none, callDisplay := none,
          incomingCalls := s.incomingCalls }
      else { s with callDisplay := none } := by
  unfold dismissErrorCall
  by_cases h : shouldStopBlinking s.incomingCalls.length none = true <;> simp [h]

theorem setCallConnectionState_none (callId : CallId) (cs : ConnState)
    (s : CallState) (hcd : s.callDisplay = none) :
    setCallConnectionState callId cs s = s := by
  unfold setCallConnectionState
  simp only [hcd]

theorem setCallConnectionState_skip (callId : CallId) (cs : ConnState)
    (s : CallState) (cd : CallDisplay) (hcd : s.callDisplay = some cd)
    (hc : cd.call.callId ≠ callId) :
    setCallConnectionState callId cs s = s := by
  unfold setCallConnectionState
  simp only [hcd]
  rw [if_pos hc]

theorem setCallConnectionState_match (callId : CallId) (cs : ConnState)
    (s : CallState) (cd : CallDisplay) (hcd : s.callDisplay = some cd)
    (hc : ¬cd.call.callId ≠ callId) :
    setCallConnectionState callId cs s =
      { s with callDisplay := some { cd with connectionState := some cs } } := by
  unfold setCallConnectionState
  simp only [hcd]
  rw [if_neg hc]

/-- C3: `removeCall(callId, callEnd)` clears the call display exactly when
the display's call has the given id, the display is not `error`, and the
call-end flag is absent or the display is not `outgoing`; a forced end
(no flag) clears a matching `accepted` display whatever its connection
state, a natural call-end never clears a matching `outgoing` display, and
the id is always dropped from the incoming queue. -/
theorem removeCall_call_end_semantics (s : CallState) (callId : CallId) :
    (∀ callEnd, (removeCall callId callEnd s).incomingCalls
        = s.incomingCalls.filter (fun info => info.callId != callId)) ∧
    (∀ callEnd, (removeCall callId callEnd s).callDisplay
        = if removeCallClearCond callId callEnd s.callDisplay then none
          else s.callDisplay) ∧
    (∀ cd, s.callDisplay = some cd → cd.type = DisplayType.accepted →
        cd.call.callId = callId → (removeCall callId false s).callDisplay = none) ∧
    (∀ cd, s.callDisplay = some cd → cd.type = DisplayType.outgoing →
        (removeCall callId true s).callDisplay = s.callDisplay) := by
  refine ⟨fun callEnd => removeCall_incomingCalls callId callEnd s,
          fun callEnd => removeCall_callDisplay callId callEnd s, ?_, ?_⟩
  · intro cd hcd htype hid
    rw [removeCall_callDisplay, hcd, removeCallClearCond_some]
    simp [hid, htype]
  · intro cd hcd htype
    rw [removeCall_callDisplay, hcd, removeCallClearCond_some]
    simp [htype]

/-- Witness for `removeCall_call_end_semantics`: a forced end on the
`accepted` display of `acceptedState` (whose transport is `connected`)
clears the slot. -/
theorem removeCall_call_end_semantics_witness :
    (removeCall "c1" false acceptedState).callDisplay = none :=
  (removeCall_call_end_semantics acceptedState "c1").2.2.1
    { type := DisplayType.accepted, call := callA, targetClientId := some "B",
      errorReason := none, connectionState := some ConnState.connected }
    rfl rfl rfl

/-- C4: when the display holds an `outgoing` call with the rejected id,
`rejectCall` turns the display `rejected` (carrying the same call), leaves
the incoming queue untouched, and ensures a blink timer is running,
starting one (and setting `blink`) only when none was; in every other case
`rejectCall` coincides with `removeCall` of that id. -/
theorem rejectCall_semantics (s : CallState) (callId : CallId) :
    (∀ cd, s.callDisplay = some cd → cd.type = DisplayType.outgoing →
      cd.call.callId = callId →
        (rejectCall callId s).callDisplay = some (rejectedDisplay cd.call) ∧
        (rejectCall callId s).incomingCalls = s.incomingCalls ∧
        (rejectCall callId s).blinkTimeoutId ≠ none ∧
        (s.blinkTimeoutId = none → (rejectCall callId s).blink = true) ∧
        (∀ tid, s.blinkTimeoutId = some tid →
          (rejectCall callId s).blinkTimeoutId = some tid ∧
          (rejectCall callId s).blink = s.blink)) ∧
    (s.callDisplay = none → rejectCall callId s = removeCall callId false s) ∧
    (∀ cd, s.callDisplay = some cd →
      (cd.call.callId ≠ callId ∨ cd.type ≠ DisplayType.outgoing) →
        rejectCall callId s = removeCall callId false s) := by
  refine ⟨?_, rejectCall_fallthrough_none s callId,
          fun cd hcd h => rejectCall_fallthrough_some s callId cd hcd h⟩
  intro cd hcd hout hid
  rw [rejectCall_match s callId cd hcd hid hout]
  cases ht : s.blinkTimeoutId with
  | none => simp [startBlink]
  | some tid => simp [ht]

/-- Witness for `rejectCall_semantics`: rejecting the outgoing `callA`
(from a state with no blink timer) produces a `rejected` display of the
same call and starts the timer. -/
theorem rejectCall_semantics_witness :
    (rejectCall "c1" (setOutgoingCall callA initialCallState)).callDisplay
        = some (rejectedDisplay callA) ∧
    (rejectCall "c1" (setOutgoingCall callA initialCallState)).blinkTimeoutId
        ≠ none ∧
    (rejectCall "c1" (setOutgoingCall callA initialCallState)).blink = true := by
  have h := (rejectCall_semantics (setOutgoingCall callA initialCallState) "c1").1
    (outgoingDisplay callA) rfl rfl rfl
  exact ⟨h.1, h.2.2.1, h.2.2.2.1 rfl⟩

/-- C10: accepting a call id that is not in the incoming queue is a no-op
on the whole call-store state. -/
theorem acceptIncomingCall_unknown_noop (s : CallState) (callId : CallId)
    (h : ∀ c ∈ s.incomingCalls, c.callId ≠ callId) :
    acceptIncomingCall callId s = s := by
  have hfind : s.incomingCalls.find? (fun call => call.callId == callId) = none := by
    rw [List.find?_eq_none]
    intro c hc
    simpa using h c hc
  unfold acceptIncomingCall
  rw [hfind]

/-- Witness for `acceptIncomingCall_unknown_noop`: `acceptedState` has an
empty incoming queue while its display carries call id `"c1"`; accepting
`"c1"` changes nothing. -/
theorem acceptIncomingCall_unknown_noop_witness :
    acceptIncomingCall "c1" acceptedState = acceptedState :=
  acceptIncomingCall_unknown_noop acceptedState "c1" (by decide)

/-- C8: `getClientInfo` never fails (it is total by construction), leaves
the directory unchanged, and on an id with no stored entry returns the
fallback client whose `id` and `displayName` are the queried id and whose
frequency is empty. -/
theorem getClientInfo_total_fallback (clients : List ClientInfo) (cid : ClientId) :
    (getClientInfo cid clients).2 = clients ∧
    ((∀ c ∈ clients, c.id ≠ cid) →
      (getClientInfo cid clients).1
        = { id := cid, displayName := cid, positionId := none, aliasName := none,
            frequency := "" }) := by
  constructor
  · rcases hfind : clients.find? (fun c => c.id == cid) with _ | c <;>
      simp [getClientInfo, hfind]
  · intro h
    have hfind : clients.find? (fun c => c.id == cid) = none := by
      rw [List.find?_eq_none]
      intro c hc
      simpa using h c hc
    simp [getClientInfo, hfind]

/-- Witness for `getClientInfo_total_fallback`: looking up `"X"` in a
directory that only holds client `"a"` yields the synthesized fallback. -/
theorem getClientInfo_total_fallback_witness :
    (getClientInfo "X" [dupClient]).1
      = { id := "X", displayName := "X", positionId := none, aliasName := none,
          frequency := "" } :=
  (getClientInfo_total_fallback [dupClient] "X").2 (by decide)

/-- C6: `startCall` on a target whose client id equals the local cid opens
the error overlay, issues no RPC and leaves the whole store snapshot
unchanged (in particular the call display and the call list). -/
theorem startCall_self_call_guard (s : StartCallState) (target : CallTarget)
    (rpcResult : Option CallId) (time : String) (stationKeys : List StationKey)
    (h : target.client = some s.cid) :
    startCall target rpcResult time stationKeys s
      = (s, { rpcIssued := false, errorOverlayOpened := true }) := by
  unfold startCall
  rw [if_pos h]

/-- Witness for `startCall_self_call_guard`: client `"A"` calling target
`"A"` from `emptyStart`. -/
theorem startCall_self_call_guard_witness :
    startCall { client := some "A", position := none, station := none }
        (some "c9") "12:00" [] emptyStart
      = (emptyStart, { rpcIssued := false, errorOverlayOpened := true }) :=
  startCall_self_call_guard emptyStart
    { client := some "A", position := none, station := none }
    (some "c9") "12:00" [] rfl

/-- C7: the `disconnected` handler leaves the call display empty, the
incoming queue empty, blinking off with no timer, the call list empty, the
station map empty, the client directory empty and the profile cleared. -/
theorem disconnected_full_reset (s : AppState) :
    (handleDisconnected s).call.callDisplay = none ∧
    (handleDisconnected s).call.incomingCalls = [] ∧
    (handleDisconnected s).call.blink = false ∧
    (handleDisconnected s).call.blinkTimeoutId = none ∧
    (handleDisconnected s).callList = [] ∧
    (handleDisconnected s).stations = [] ∧
    (handleDisconnected s).clients = [] ∧
    (handleDisconnected s).profile = none ∧
    (handleDisconnected s).connectionState = ConnState.disconnected := by
  simp [handleDisconnected, resetCall, setClients, setStations]

/-- C1 counterexample: with the call display already occupied (state
`occupiedStart`), `startCall` towards another client still issues the
start-call RPC and replaces the display, contradicting the claim that no
RPC is issued and the slot is left unchanged. -/
theorem startCall_occupied_counterexample :
    occupiedStart.call.callDisplay ≠ none ∧
    (startCall { client := some "B", position := none, station := none }
        (some "c2") "12:00" [] occupiedStart).2.rpcIssued = true ∧
    (startCall { client := some "B", position := none, station := none }
        (some "c2") "12:00" [] occupiedStart).1.call.callDisplay
      ≠ occupiedStart.call.callDisplay := by
  refine ⟨by decide, by decide, by decide⟩

/-- C1 amended: `startCall` performs no occupancy check of its own — for
any store snapshot (occupied or not), a call towards a non-self target
issues the RPC and, on success, overwrites the display with the new
outgoing call; at most one `CallDisplay` exists only because the store
holds a single optional display slot. -/
theorem startCall_no_occupancy_guard (s : StartCallState) (target : CallTarget)
    (callId : CallId) (time : String) (stationKeys : List StationKey)
    (h : target.client ≠ some s.cid) :
    (startCall target (some callId) time stationKeys s).2.rpcIssued = true ∧
    (startCall target (some callId) time stationKeys s).1.call.callDisplay
      = some (outgoingDisplay
          { callId := callId,
            source := { clientId := s.cid, positionId := s.positionId,
                        stationId := resolvedStationId s },
            target := target }) := by
  unfold startCall
  rw [if_neg h]
  cases htmp : s.temporarySource <;>
    simp [resolvedStationId, htmp, setOutgoingCall, outgoingDisplay]

/-- Witness for `startCall_no_occupancy_guard` at the occupied snapshot
`occupiedStart`. -/
theorem startCall_no_occupancy_guard_witness :
    (startCall { client := some "B", position := none, station := none }
        (some "c2") "12:00" [] occupiedStart).2.rpcIssued = true ∧
    (startCall { client := some "B", position := none, station := none }
        (some "c2") "12:00" [] occupiedStart).1.call.callDisplay
      = some (outgoingDisplay
          { callId := "c2",
            source := { clientId := occupiedStart.cid,
                        positionId := occupiedStart.positionId,
                        stationId := resolvedStationId occupiedStart },
            target := { client := some "B", position := none, station := none } }) :=
  startCall_no_occupancy_guard occupiedStart
    { client := some "B", position := none, station := none }
    "c2" "12:00" [] (by decide)

/-- C9 counterexample: `addClient` performs no removal of an existing entry
with the same id — adding `dupClient` on top of itself keeps both copies,
so a reachable directory snapshot carries duplicate ids. -/
theorem addClient_duplicate_counterexample :
    ReachableClients dupClients ∧
    addClient dupClient [dupClient] ≠ [dupClient] ∧
    ¬ (dupClients.map ClientInfo.id).Nodup := by
  refine ⟨?_, by decide, by decide⟩
  unfold dupClients
  exact ReachableClients.next (ClientsOp.addClient dupClient)
    (ReachableClients.next (ClientsOp.addClient dupClient) ReachableClients.init)

/-- C9 amended: `addClient` plainly appends the new client at the end of
the directory, without removing an existing entry of the same id; id
uniqueness is not enforced by the store. -/
theorem addClient_plain_append (s : List ClientInfo) (client : ClientInfo) :
    addClient client s = s ++ [client] := rfl

theorem blinkInv_initial : BlinkInv initialCallState := by
  intro _
  exact ⟨rfl, fun cd hcd => by simp [initialCallState] at hcd⟩

theorem blinkInv_setOutgoingCall (call : Call) (s : CallState) (h : BlinkInv s) :
    BlinkInv (setOutgoingCall call s) := by
  intro ht
  refine ⟨(h ht).1, fun cd hcd => ?_⟩
  simp only [setOutgoingCall, Option.some.injEq] at hcd
  rw [← hcd]
  exact ⟨by simp, by simp⟩

theorem blinkInv_acceptIncomingCall (callId : CallId) (s : CallState)
    (h : BlinkInv s) : BlinkInv (acceptIncomingCall callId s) := by
  cases hfind : s.incomingCalls.find? (fun call => call.callId == callId) with
  | none =>
    rw [acceptIncomingCall_not_found callId s hfind]
    exact h
  | some c =>
    rw [acceptIncomingCall_found callId s c hfind]
    intro ht
    have ht' : (if shouldStopBlinking
        (s.incomingCalls.filter (fun info => info.callId != callId)).length
        s.callDisplay then none else s.blinkTimeoutId) = none := ht
    by_cases hstop : shouldStopBlinking
        (s.incomingCalls.filter (fun info => info.callId != callId)).length
        s.callDisplay = true
    · refine ⟨?_, fun cd hcd => ?_⟩
      · exact List.length_eq_zero.mp (shouldStopBlinking_eq_true.mp hstop).1
      · simp only [Option.some.injEq] at hcd
        rw [← hcd]
        exact ⟨by simp, by simp⟩
    · rw [if_neg hstop] at ht'
      obtain ⟨hinc, -⟩ := h ht'
      refine ⟨?_, fun cd hcd => ?_⟩
      · show s.incomingCalls.filter (fun info => info.callId != callId) = []
        rw [hinc]
        rfl
      · simp only [Option.some.injEq] at hcd
        rw [← hcd]
        exact ⟨by simp, by simp⟩

theorem blinkInv_setOutgoingCallAccepted (callId : CallId)
    (targetClientId : ClientId) (s : CallState) (h : BlinkInv s) :
    BlinkInv (setOutgoingCallAccepted callId targetClientId s) := by
  cases hcd : s.callDisplay with
  | none =>
    rw [setOutgoingCallAccepted_none callId targetClientId s hcd]
    exact h
  | some cd =>
    by_cases hc : cd.type ≠ DisplayType.outgoing ∨ cd.call.callId ≠ callId
    · rw [setOutgoingCallAccepted_skip callId targetClientId s cd hcd hc]
      exact h
    · rw [setOutgoingCallAccepted_match callId targetClientId s cd hcd hc]
      intro ht
      refine ⟨(h ht).1, fun cd' hcd' => ?_⟩
      simp only [Option.some.injEq] at hcd'
      rw [← hcd']
      exact ⟨by simp, by simp⟩

theorem blinkInv_endCall (s : CallState) (h : BlinkInv s) :
    BlinkInv (endCall s) := by
  intro ht
  refine ⟨(h ht).1, fun cd hcd => ?_⟩
  simp [endCall] at hcd

theorem blinkInv_addIncomingCall (call : Call) (s : CallState)
    (_h : BlinkInv s) : BlinkInv (addIncomingCall call s) := by
  rw [addIncomingCall_eq]
  intro ht
  have ht' : (if s.blinkTimeoutId = none then some 0 else s.blinkTimeoutId)
      = none := ht
  by_cases hb : s.blinkTimeoutId = none
  · rw [if_pos hb] at ht'
    exact absurd ht' (by simp)
  · rw [if_neg hb] at ht'
    exact absurd ht' hb

theorem blinkInv_removeCall (callId : CallId) (callEnd : Bool) (s : CallState)
    (h : BlinkInv s) : BlinkInv (removeCall callId callEnd s) := by
  intro ht
  have ht' : (if shouldStopBlinking
      (s.incomingCalls.filter (fun info => info.callId != callId)).length
      s.callDisplay then none else s.blinkTimeoutId) = none := by
    rw [← removeCall_blinkTimeoutId callId callEnd s]
    exact ht
  by_cases hstop : shouldStopBlinking
      (s.incomingCalls.filter (fun info => info.callId != callId)).length
      s.callDisplay = true
  · obtain ⟨hlen, hcd⟩ := shouldStopBlinking_eq_true.mp hstop
    refine ⟨?_, fun cd hcd' => ?_⟩
    · rw [removeCall_incomingCalls]
      exact List.length_eq_zero.mp hlen
    · rw [removeCall_callDisplay] at hcd'
      by_cases hclear : removeCallClearCond callId callEnd s.callDisplay = true
      · rw [if_pos hclear] at hcd'
        exact absurd hcd' (by simp)
      · rw [if_neg hclear] at hcd'
        exact hcd cd hcd'
  · rw [if_neg hstop] at ht'
    obtain ⟨hinc, hcd⟩ := h ht'
    refine ⟨?_, fun cd hcd' => ?_⟩
    · rw [removeCall_incomingCalls, hinc]
      rfl
    · rw [removeCall_callDisplay] at hcd'
      by_cases hclear : removeCallClearCond callId callEnd s.callDisplay = true
      · rw [if_pos hclear] at hcd'
        exact absurd hcd' (by simp)
      · rw [if_neg hclear] at hcd'
        exact hcd cd hcd'

theorem blinkInv_rejectCall (callId : CallId) (s : CallState) (h : BlinkInv s) :
    BlinkInv (rejectCall callId s) := by
  cases hcd : s.callDisplay with
  | none =>
    rw [rejectCall_fallthrough_none s callId hcd]
    exact blinkInv_removeCall callId false s h
  | some cd =>
    by_cases hc : cd.call.callId ≠ callId ∨ cd.type ≠ DisplayType.outgoing
    · rw [rejectCall_fallthrough_some s callId cd hcd hc]
      exact blinkInv_removeCall callId false s h
    · push_neg at hc
      rw [rejectCall_match s callId cd hcd hc.1 hc.2]
      cases htid : s.blinkTimeoutId with
      | none =>
        rw [if_pos rfl]
        intro ht
        simp [startBlink] at ht
      | some tid =>
        rw [if_neg (by simp)]
        intro ht
        simp at ht

theorem blinkInv_dismissRejectedCall (s : CallState) (h : BlinkInv s) :
    BlinkInv (dismissRejectedCall s) := by
  rw [dismissRejectedCall_eq]
  by_cases hstop : shouldStopBlinking s.incomingCalls.length none = true
  · rw [if_pos hstop]
    intro _
    refine ⟨List.length_eq_zero.mp (shouldStopBlinking_eq_true.mp hstop).1, ?_⟩
    intro cd hcd
    simp at hcd
  · rw [if_neg hstop]
    intro ht
    obtain ⟨hinc, -⟩ := h ht
    rw [hinc] at hstop
    exact absurd rfl hstop

theorem blinkInv_errorCall (callId : CallId) (reason : String) (s : CallState)
    (h : BlinkInv s) : BlinkInv (errorCall callId reason s) := by
  cases hcd : s.callDisplay with
  | none =>
    rw [errorCall_fallthrough_none s callId reason hcd]
    exact blinkInv_removeCall callId false s h
  | some cd =>
    by_cases hc : cd.call.callId ≠ callId ∨ cd.type = DisplayType.rejected
    · rw [errorCall_fallthrough_some s callId reason cd hcd hc]
      exact blinkInv_removeCall callId false s h
    · push_neg at hc
      rw [errorCall_match s callId reason cd hcd hc.1 hc.2]
      cases htid : s.blinkTimeoutId with
      | none =>
        rw [if_pos rfl]
        intro ht
        simp [startBlink] at ht
      | some tid =>
        rw [if_neg (by simp)]
        intro ht
        simp at ht

theorem blinkInv_dismissErrorCall (s : CallState) (h : BlinkInv s) :
    BlinkInv (dismissErrorCall s) := by
  rw [dismissErrorCall_eq]
  by_cases hstop : shouldStopBlinking s.incomingCalls.length none = true
  · rw [if_pos hstop]
    intro _
    refine ⟨List.length_eq_zero.mp (shouldStopBlinking_eq_true.mp hstop).1, ?_⟩
    intro cd hcd
    simp at hcd
  · rw [if_neg hstop]
    intro ht
    obtain ⟨hinc, -⟩ := h ht
    rw [hinc] at hstop
    exact absurd rfl hstop

theorem blinkInv_setCallConnectionState (callId : CallId) (cs : ConnState)
    (s : CallState) (h : BlinkInv s) :
    BlinkInv (setCallConnectionState callId cs s) := by
  cases hcd : s.callDisplay with
  | none =>
    rw [setCallConnectionState_none callId cs s hcd]
    exact h
  | some cd =>
    by_cases hc : cd.call.callId ≠ callId
    · rw [setCallConnectionState_skip callId cs s cd hcd hc]
      exact h
    · rw [setCallConnectionState_match callId cs s cd hcd hc]
      intro ht
      obtain ⟨hinc, hdisp⟩ := h ht
      refine ⟨hinc, fun cd' hcd' => ?_⟩
      simp only [Option.some.injEq] at hcd'
      rw [← hcd']
      exact hdisp cd hcd

theorem blinkInv_resetCall (s : CallState) (_h : BlinkInv s) :
    BlinkInv (resetCall s) := by
  intro _
  exact ⟨rfl, fun cd hcd => by simp [resetCall] at hcd⟩

theorem blinkInv_step (op : CallOp) (s : CallState) (h : BlinkInv s) :
    BlinkInv (op.apply s) := by
  cases op with
  | setOutgoingCall call => exact blinkInv_setOutgoingCall call s h
  | acceptIncomingCall callId => exact blinkInv_acceptIncomingCall callId s h
  | setOutgoingCallAccepted callId targetClientId =>
    exact blinkInv_setOutgoingCallAccepted callId targetClientId s h
  | endCall => exact blinkInv_endCall s h
  | addIncomingCall call => exact blinkInv_addIncomingCall call s h
  | removeCall callId callEnd => exact blinkInv_removeCall callId callEnd s h
  | rejectCall callId => exact blinkInv_rejectCall callId s h
  | dismissRejectedCall => exact blinkInv_dismissRejectedCall s h
  | errorCall callId reason => exact blinkInv_errorCall callId reason s h
  | dismissErrorCall => exact blinkInv_dismissErrorCall s h
  | setCallConnectionState callId cs =>
    exact blinkInv_setCallConnectionState callId cs s h
  | resetCall => exact blinkInv_resetCall s h

theorem blinkInv_reachable (s : CallState) (h : ReachableCall s) : BlinkInv s := by
  induction h with
  | init => exact blinkInv_initial
  | next op hs ih => exact blinkInv_step op _ ih

/-- C2 counterexample: `blinkLeakState` is reachable (originate, remote
reject, then force-end the rejected call); afterwards no blink-worthy
condition holds yet the blink timer handle is still installed, so the
claimed "timer exists iff blink-worthy" equivalence fails. -/
theorem blink_timer_leak_counterexample :
    ReachableCall blinkLeakState ∧
    blinkLeakState.blinkTimeoutId ≠ none ∧
    blinkWorthy blinkLeakState = false := by
  refine ⟨?_, by decide, by decide⟩
  unfold blinkLeakState
  exact ReachableCall.next (CallOp.removeCall "c1" false)
    (ReachableCall.next (CallOp.rejectCall "c1")
      (ReachableCall.next (CallOp.setOutgoingCall callA) ReachableCall.init))

/-- C2 amended: in every reachable call-store state, if a blink-worthy
condition holds (non-empty incoming queue, or a `rejected`/`error`
display) then a blink timer handle exists.  The converse direction fails:
`removeCall` and `acceptIncomingCall` evaluate the stop condition against
the pre-operation display, so the timer can be left installed when the
same operation clears or replaces a `rejected`/`error` display (see the
counterexample). -/
theorem blink_worthy_implies_timer (s : CallState) (h : ReachableCall s)
    (hw : blinkWorthy s = true) : s.blinkTimeoutId ≠ none := by
  intro hnone
  obtain ⟨hinc, hdisp⟩ := blinkInv_reachable s h hnone
  unfold blinkWorthy at hw
  rw [hinc] at hw
  cases hcd : s.callDisplay with
  | none =>
    rw [hcd] at hw
    simp at hw
  | some cd =>
    rw [hcd] at hw
    simp at hw
    obtain ⟨h1, h2⟩ := hdisp cd hcd
    rcases hw with hw | hw
    · exact h1 hw
    · exact h2 hw

/-- Witness for `blink_worthy_implies_timer`: after one `addIncomingCall`
the state is blink-worthy, so a timer handle exists. -/
theorem blink_worthy_implies_timer_witness :
    oneIncomingState.blinkTimeoutId ≠ none := by
  have hr : ReachableCall oneIncomingState := by
    unfold oneIncomingState
    exact ReachableCall.next (CallOp.addIncomingCall callA) ReachableCall.init
  exact blink_worthy_implies_timer oneIncomingState hr (by decide)

theorem nodup_callId_filter {l : List Call}
    (h : (l.map Call.callId).Nodup) (callId : CallId) :
    ((l.filter (fun info => info.callId != callId)).map Call.callId).Nodup := by
  have hsub : List.Sublist
      ((l.filter (fun info => info.callId != callId)).map Call.callId)
      (l.map Call.callId) :=
    (List.filter_sublist l).map Call.callId
  exact h.sublist hsub

theorem nodup_callId_filter_append {l : List Call}
    (h : (l.map Call.callId).Nodup) (call : Call) :
    ((l.filter (fun info => info.callId != call.callId) ++ [call]).map
        Call.callId).Nodup := by
  rw [List.map_append, List.nodup_append]
  refine ⟨nodup_callId_filter h call.callId, List.nodup_singleton _, ?_⟩
  intro a ha hb
  simp only [List.map_cons, List.map_nil, List.mem_singleton] at hb
  subst hb
  simp only [List.mem_map, List.mem_filter, bne_iff_ne] at ha
  obtain ⟨c, ⟨-, hne⟩, hceq⟩ := ha
  exact hne hceq

theorem apply_incoming_shapes (op : CallOp) (s : CallState) :
    (op.apply s).incomingCalls = s.incomingCalls ∨
    (op.apply s).incomingCalls = [] ∨
    (∃ k, (op.apply s).incomingCalls
        = s.incomingCalls.filter (fun info => info.callId != k)) ∨
    (∃ c, (op.apply s).incomingCalls
        = s.incomingCalls.filter (fun info => info.callId != c.callId) ++ [c]) := by
  cases op with
  | setOutgoingCall call => exact Or.inl rfl
  | acceptIncomingCall callId =>
    simp only [CallOp.apply]
    cases hfind : s.incomingCalls.find? (fun call => call.callId == callId) with
    | none =>
      rw [acceptIncomingCall_not_found callId s hfind]
      exact Or.inl rfl
    | some c =>
      rw [acceptIncomingCall_found callId s c hfind]
      exact Or.inr (Or.inr (Or.inl ⟨callId, rfl⟩))
  | setOutgoingCallAccepted callId targetClientId =>
    simp only [CallOp.apply]
    cases hcd : s.callDisplay with
    | none =>
      rw [setOutgoingCallAccepted_none callId targetClientId s hcd]
      exact Or.inl rfl
    | some cd =>
      by_cases hc : cd.type ≠ DisplayType.outgoing ∨ cd.call.callId ≠ callId
      · rw [setOutgoingCallAccepted_skip callId targetClientId s cd hcd hc]
        exact Or.inl rfl
      · rw [setOutgoingCallAccepted_match callId targetClientId s cd hcd hc]
        exact Or.inl rfl
  | endCall => exact Or.inl rfl
  | addIncomingCall call =>
    simp only [CallOp.apply]
    rw [addIncomingCall_eq]
    exact Or.inr (Or.inr (Or.inr ⟨call, rfl⟩))
  | removeCall callId callEnd =>
    exact Or.inr (Or.inr (Or.inl ⟨callId, removeCall_incomingCalls callId callEnd s⟩))
  | rejectCall callId =>
    simp only [CallOp.apply]
    cases hcd : s.callDisplay with
    | none =>
      rw [rejectCall_fallthrough_none s callId hcd]
      exact Or.inr (Or.inr (Or.inl ⟨callId, removeCall_incomingCalls callId false s⟩))
    | some cd =>
      by_cases hc : cd.call.callId ≠ callId ∨ cd.type ≠ DisplayType.outgoing
      · rw [rejectCall_fallthrough_some s callId cd hcd hc]
        exact Or.inr (Or.inr (Or.inl ⟨callId, removeCall_incomingCalls callId false s⟩))
      · push_neg at hc
        rw [rejectCall_match s callId cd hcd hc.1 hc.2]
        cases htid : s.blinkTimeoutId with
        | none =>
          rw [if_pos rfl]
          exact Or.inl rfl
        | some tid =>
          rw [if_neg (by simp)]
          exact Or.inl rfl
  | dismissRejectedCall =>
    simp only [CallOp.apply]
    rw [dismissRejectedCall_eq]
    by_cases hstop : shouldStopBlinking s.incomingCalls.length none = true
    · rw [if_pos hstop]
      exact Or.inl rfl
    · rw [if_neg hstop]
      exact Or.inl rfl
  | errorCall callId reason =>
    simp only [CallOp.apply]
    cases hcd : s.callDisplay with
    | none =>
      rw [errorCall_fallthrough_none s callId reason hcd]
      exact Or.inr (Or.inr (Or.inl ⟨callId, removeCall_incomingCalls callId false s⟩))
    | some cd =>
      by_cases hc : cd.call.callId ≠ callId ∨ cd.type = DisplayType.rejected
      · rw [errorCall_fallthrough_some s callId reason cd hcd hc]
        exact Or.inr (Or.inr (Or.inl ⟨callId, removeCall_incomingCalls callId false s⟩))
      · push_neg at hc
        rw [errorCall_match s callId reason cd hcd hc.1 hc.2]
        cases htid : s.blinkTimeoutId with
        | none =>
          rw [if_pos rfl]
          exact Or.inl rfl
        | some tid =>
          rw [if_neg (by simp)]
          exact Or.inl rfl
  | dismissErrorCall =>
    simp only [CallOp.apply]
    rw [dismissErrorCall_eq]
    by_cases hstop : shouldStopBlinking s.incomingCalls.length none = true
    · rw [if_pos hstop]
      exact Or.inl rfl
    · rw [if_neg hstop]
      exact Or.inl rfl
  | setCallConnectionState callId cs =>
    simp only [CallOp.apply]
    cases hcd : s.callDisplay with
    | none =>
      rw [setCallConnectionState_none callId cs s hcd]
      exact Or.inl rfl
    | some cd =>
      by_cases hc : cd.call.callId ≠ callId
      · rw [setCallConnectionState_skip callId cs s cd hcd hc]
        exact Or.inl rfl
      · rw [setCallConnectionState_match callId cs s cd hcd hc]
        exact Or.inl rfl
  | resetCall => exact Or.inr (Or.inl rfl)

theorem reachable_incoming_nodup (s : CallState) (h : ReachableCall s) :
    (s.incomingCalls.map Call.callId).Nodup := by
  induction h with
  | init => simp [initialCallState]
  | next op hs ih =>
    rcases apply_incoming_shapes op _ with heq | heq | ⟨k, heq⟩ | ⟨c, heq⟩
    · rw [heq]
      exact ih
    · rw [heq]
      simp
    · rw [heq]
      exact nodup_callId_filter ih k
    · rw [heq]
      exact nodup_callId_filter_append ih c

/-- C5: in every reachable call-store state the incoming queue holds at
most one entry per call id, and `addIncomingCall` coalesces: it removes any
queued entry with the new call's id and appends the new call at the end. -/
theorem incoming_unique_coalesce :
    (∀ s, ReachableCall s → (s.incomingCalls.map Call.callId).Nodup) ∧
    ∀ (s : CallState) (call : Call),
      (addIncomingCall call s).incomingCalls
        = s.incomingCalls.filter (fun info => info.callId != call.callId)
            ++ [call] := by
  refine ⟨reachable_incoming_nodup, fun s call => ?_⟩
  rw [addIncomingCall_eq]

/-- Witness for `incoming_unique_coalesce`: the queue after adding `callA`
and then `callC` has pairwise distinct call ids. -/
theorem incoming_unique_coalesce_witness :
    (((CallOp.addIncomingCall callC).apply oneIncomingState).incomingCalls.map
        Call.callId).Nodup := by
  have hr : ReachableCall ((CallOp.addIncomingCall callC).apply oneIncomingState) := by
    unfold oneIncomingState
    exact ReachableCall.next (CallOp.addIncomingCall callC)
      (ReachableCall.next (CallOp.addIncomingCall callA) ReachableCall.init)
  exact incoming_unique_coalesce.1 _ hr

end Vacs
